import Mathlib

/-!
Shallow embedding of the core of the `url-shortener` repository
(short-code generation/validation, code allocation, cache-aside
resolution pipeline, redis-backed rate governor), with theorems
settling the specification claims.

Conventions of the embedding:
* JavaScript strings are Lean `String`s; `null`/absent values are `Option`.
* Timestamps are natural numbers (the resolution pipeline and durable
  store use an abstract clock `now`; the rate-governor model counts in
  seconds, matching `windowInSeconds` in the source).
* The external Redis client is modelled as explicit state.  A cache
  whose `ok` field is `false` models the "no client / every operation
  throws" situation: the source wraps each operation in `try/catch`
  (`cacheGet`→`null`, `cacheSet`/`cacheDel`→`false`, `cacheIncrement`→`0`),
  so in the embedding the operations are total and return those values.
* `await`ed asynchronous calls are sequential state passing; a
  fire-and-forget call with `.catch` is modelled by applying its state
  effect when it succeeds and leaving state unchanged when it fails,
  never affecting the returned result.
-/

namespace UrlShortener

/-! ## Code generator (`src/utils/shortCodeGenerator.js`) -/

/-- `BASE62_ALPHABET` from `shortCodeGenerator.js`:
`0123456789ABCDEFGHIJKLMNOPQRSTUVWXYZabcdefghijklmnopqrstuvwxyz`. -/
def BASE62_ALPHABET : List Char :=
  "0123456789ABCDEFGHIJKLMNOPQRSTUVWXYZabcdefghijklmnopqrstuvwxyz".toList

/-- One character drawn from the Base62 alphabet; `r` is the random
index supplied by the environment (nanoid's randomness), reduced
modulo the alphabet size as a uniform pick. -/
def base62Char (r : Nat) : Char :=
  BASE62_ALPHABET.getD (r % 62) '0'

/-- `customAlphabet(BASE62_ALPHABET, length)` applied once: a string of
`length` characters from the alphabet, the randomness being the oracle
`rand : Nat → Nat` (position ↦ random index). -/
def nanoidCustom (length : Nat) (rand : Nat → Nat) : String :=
  String.mk ((List.range length).map (fun i => base62Char (rand i)))

/-- `generate(length = 7)` from `shortCodeGenerator.js`.  The source
reads `if (length) { return customAlphabet(BASE62_ALPHABET, length)(); }
return generateShortCode();` where `generateShortCode` has length 7 —
so a *falsy* length (0) falls back to the default 7-character
generator. -/
def generate (length : Nat) (rand : Nat → Nat) : String :=
  if length ≠ 0 then nanoidCustom length rand
  else nanoidCustom 7 rand

/-- Membership in the character class `[0-9A-Za-z]` of the validation
regexes in `shortCodeGenerator.js` and `validator.js`. -/
def isBase62 (c : Char) : Bool :=
  (decide ('0' ≤ c) && decide (c ≤ '9')) ||
  (decide ('A' ≤ c) && decide (c ≤ 'Z')) ||
  (decide ('a' ≤ c) && decide (c ≤ 'z'))

/-- `isValidShortCode(shortCode)` from `shortCodeGenerator.js`: a
non-empty string of 4 to 10 characters matching `/^[0-9A-Za-z]+$/`.
(The `!shortCode` falsiness guard is subsumed by the length-≥-4 check
for strings; the non-string case is outside the `String` domain.) -/
def isValidShortCode (s : String) : Bool :=
  if s.length < 4 || 10 < s.length then false
  else s.toList.all isBase62

/-- JavaScript `String.prototype.trim()`: strip whitespace from both
ends (modelled structurally over the character list). -/
def jsTrim (s : String) : String :=
  String.mk
    (((s.toList.dropWhile Char.isWhitespace).reverse.dropWhile
        Char.isWhitespace).reverse)

/-- `customCode.trim().replace(/[^0-9A-Za-z]/g, '')` from
`sanitizeCustomCode`. -/
def sanitizeFilter (s : String) : String :=
  String.mk (((jsTrim s).toList).filter isBase62)

/-- `sanitizeCustomCode(customCode)` from `shortCodeGenerator.js`.
The input is `Option String`: `none` stands for a missing or
non-string argument (rejected by the `!customCode || typeof !== 'string'`
guard, as is the falsy empty string). -/
def sanitizeCustomCode (customCode : Option String) : Option String :=
  match customCode with
  | none => none
  | some s =>
    if s = "" then none
    else
      let sanitized := sanitizeFilter s
      if isValidShortCode sanitized then some sanitized else none

/-! ## Custom-code validation (`src/utils/validator.js`) -/

/-- `validateCustomCode(customCode)` from `validator.js` reduced to its
boolean verdict: non-empty string, trimmed length between 4 and 10,
all characters alphanumeric. -/
def validateCustomCode (s : String) : Bool :=
  if s = "" then false
  else
    let trimmed := jsTrim s
    if trimmed.length < 4 then false
    else if 10 < trimmed.length then false
    else trimmed.toList.all isBase62

/-- `validateExpirationDays(days)` from `validator.js` reduced to its
boolean verdict over natural day counts: absent is valid, present must
be at most 3650.  (The negative and NaN branches lie outside `Nat`.) -/
def validateExpirationDays (days : Option Nat) : Bool :=
  match days with
  | none => true
  | some d => decide (d ≤ 3650)

/-! ## Fast Cache: the key/value side of `config/redis.js`

`cacheGet` / `cacheSet` / `cacheDel` each guard on the client being
present and wrap the Redis call in `try/catch`; a missing client or a
thrown error yields `null` / `false` / `false` respectively.  The
`ok := false` state models "client absent or every operation fails". -/

/-- State of the Redis key/value cache as seen through the helpers of
`config/redis.js`: availability flag plus the live string entries.
(TTL decay is driven by the external environment; the theorems
quantify over cache states, which covers every decay schedule.) -/
structure KVCache where
  ok : Bool
  entries : List (String × String)
deriving Repr, DecidableEq

/-- Look a key up in an entry list (Redis `GET`). -/
def kvLookup (es : List (String × String)) (k : String) : Option String :=
  (es.find? (fun e => e.1 = k)).map (fun e => e.2)

/-- `cacheGet(key)`: `null` when the client is absent or the call
throws, otherwise the stored value or `null`. -/
def cacheGet (c : KVCache) (k : String) : Option String :=
  if c.ok then kvLookup c.entries k else none

/-- `cacheSet(key, value, expirationInSeconds)`: `false` (no-op) when
the client is absent or `setEx` throws, otherwise stores the value
(with the TTL managed by Redis) and returns `true`. -/
def cacheSet (c : KVCache) (k v : String) (_ttlSeconds : Nat) :
    Bool × KVCache :=
  if c.ok then
    (true, ⟨true, (k, v) :: c.entries.filter (fun e => e.1 ≠ k)⟩)
  else (false, c)

/-- `cacheDel(key)`: `false` (no-op) when the client is absent or
`del` throws, otherwise removes the key and returns `true`. -/
def cacheDel (c : KVCache) (k : String) : Bool × KVCache :=
  if c.ok then (true, ⟨true, c.entries.filter (fun e => e.1 ≠ k)⟩)
  else (false, c)

/-! ## Durable Record Store (`models/urlModel.js` over PostgreSQL) -/

/-- A row of the `urls` table (`migrate.js`: `original_url`,
`short_code UNIQUE NOT NULL`, `created_at`, `expires_at` nullable,
`click_count`, `last_accessed` nullable, `user_ip`, `is_custom`). -/
structure UrlRecord where
  short_code : String
  original_url : String
  created_at : Nat
  expires_at : Option Nat
  click_count : Nat
  last_accessed : Option Nat
  user_ip : String
  is_custom : Bool
deriving Repr, DecidableEq

/-- The durable store: the rows of the `urls` table.  The
`short_code UNIQUE` constraint is enforced by `dbCreate` below. -/
structure Db where
  urls : List UrlRecord
deriving Repr, DecidableEq

/-- `UrlModel.findByShortCode(shortCode)`:
`SELECT * FROM urls WHERE short_code = $1`, first row or `null`. -/
def findByShortCode (db : Db) (code : String) : Option UrlRecord :=
  db.urls.find? (fun r => r.short_code = code)

/-- `UrlModel.exists(shortCode)`:
`SELECT EXISTS(SELECT 1 FROM urls WHERE short_code = $1)`. -/
def dbExists (db : Db) (code : String) : Bool :=
  db.urls.any (fun r => r.short_code = code)

/-- `UrlModel.create(urlData)`: `INSERT INTO urls ... RETURNING *`.
The `short_code UNIQUE` constraint makes the insert fail atomically
(PostgreSQL unique-violation) when the code is already present;
`Except.error ()` is that thrown conflict. -/
def dbCreate (db : Db) (r : UrlRecord) : Except Unit (UrlRecord × Db) :=
  if dbExists db r.short_code then Except.error ()
  else Except.ok (r, ⟨db.urls ++ [r]⟩)

/-- `UrlModel.incrementClickCount(shortCode)`:
`UPDATE urls SET click_count = click_count + 1, last_accessed = NOW()
WHERE short_code = $1`. -/
def incrementClickCount (db : Db) (code : String) (now : Nat) : Db :=
  ⟨db.urls.map (fun r =>
    if r.short_code = code then
      { r with click_count := r.click_count + 1, last_accessed := some now }
    else r)⟩

/-- The expiry test of `redirectUrl` in `urlController.js`:
`urlRecord.expires_at && new Date(urlRecord.expires_at) < new Date()` —
a record is expired iff it has an expiry strictly before the current
time. -/
def isExpiredAt (expiresAt : Option Nat) (now : Nat) : Bool :=
  match expiresAt with
  | none => false
  | some e => decide (e < now)

/-! ## Resolution pipeline: `UrlController.redirectUrl` -/

/-- Outcome of `redirectUrl` as seen by the client: the 301 redirect
with its target, or one of the error responses produced through
`next(error)` (400 missing code, 404 not found, 410 expired, or a
propagated durable-store error caught by the outer `try/catch`). -/
inductive ResolveResult where
  | redirect (url : String)
  | badRequest
  | notFound
  | expired
  | storeError
deriving Repr, DecidableEq

/-- The truthiness test `if (originalUrl)` on the value returned by
`cacheGet`: a hit only when a value is present and non-empty. -/
def cacheHitValue (c : KVCache) (k : String) : Option String :=
  match cacheGet c k with
  | none => none
  | some v => if v = "" then none else some v

/-- `UrlController.redirectUrl` (`urlController.js`).  Inputs beyond
the short code: the durable store, the cache, the clock, and `incrOk`,
which tells whether the `UrlModel.incrementClickCount` database call
succeeds.  Faithful control flow:
1. falsy `shortCode` → 400;
2. cache hit → fire-and-forget click increment (`.catch` swallows a
   failure: the store is updated only when `incrOk`) and 301 redirect;
3. cache miss → `findByShortCode`; absent → 404; expired →
   `cacheDel` then 410; otherwise `cacheSet` (TTL 86400), **awaited**
   `incrementClickCount` (a failure propagates to `next(error)`),
   fire-and-forget `recordAnalytics` (failure swallowed, analytics
   state not modelled), 301 redirect. -/
def redirectUrl (shortCode : String) (db : Db) (cache : KVCache)
    (now : Nat) (incrOk : Bool) : ResolveResult × Db × KVCache :=
  if shortCode = "" then (ResolveResult.badRequest, db, cache)
  else
    match cacheHitValue cache ("url:" ++ shortCode) with
    | some url =>
      (ResolveResult.redirect url,
       if incrOk then incrementClickCount db shortCode now else db,
       cache)
    | none =>
      match findByShortCode db shortCode with
      | none => (ResolveResult.notFound, db, cache)
      | some urlRecord =>
        if isExpiredAt urlRecord.expires_at now then
          (ResolveResult.expired, db,
           (cacheDel cache ("url:" ++ shortCode)).2)
        else
          let cache1 := (cacheSet cache ("url:" ++ shortCode)
            urlRecord.original_url 86400).2
          if incrOk then
            (ResolveResult.redirect urlRecord.original_url,
             incrementClickCount db shortCode now, cache1)
          else (ResolveResult.storeError, db, cache1)

/-! ## Code Allocator: `UrlModel.generateUniqueShortCode` -/

/-- The retry loop of `generateUniqueShortCode(maxAttempts = 5)`:
attempt `i` draws `generate()` (length 7, randomness `rand i`) and
checks `UrlModel.exists`; the first absent candidate is returned.
Result: the allocated code (or `none` after exhausting the budget)
paired with the number of generate-and-check attempts performed. -/
def allocLoop (rand : Nat → Nat → Nat) (ex : String → Bool) :
    Nat → Nat → Option String × Nat
  | _, 0 => (none, 0)
  | i, n + 1 =>
    let shortCode := generate 7 (rand i)
    if ex shortCode then
      let rest := allocLoop rand ex (i + 1) n
      (rest.1, rest.2 + 1)
    else (some shortCode, 1)

/-- `UrlModel.generateUniqueShortCode(maxAttempts = 5)`: run the retry
loop from attempt 0; `none` models the thrown
`Failed to generate unique short code after multiple attempts`. -/
def generateUniqueShortCode (rand : Nat → Nat → Nat) (ex : String → Bool)
    (maxAttempts : Nat) : Option String × Nat :=
  allocLoop rand ex 0 maxAttempts

/-! ## Creation path: `UrlController.shortenUrl` -/

/-- Outcome of `shortenUrl` as seen by the client: 201 with the new
code, a 400 validation rejection, 409 `AlreadyTaken`, or the
`AllocationExhausted` failure from the allocator. -/
inductive ShortenResult where
  | created (shortCode : String) (originalUrl : String)
  | invalidCustomCode
  | invalidExpiration
  | alreadyTaken
  | allocationExhausted
deriving Repr, DecidableEq

/-- The `expiresAt` computed by `shortenUrl`: `null` unless a positive
`expirationDays` is supplied, in which case now plus that many days
(`Date.setDate` adds calendar days; modelled as fixed 86400000 ms
days). -/
def expiryOf (expirationDays : Option Nat) (now : Nat) : Option Nat :=
  match expirationDays with
  | none => none
  | some d => if d = 0 then none else some (now + d * 86400000)

/-- Modelled from the spec: the `errorHandler` middleware
(`src/middleware/errorHandler.js` is absent from the sources; only its
callers are).  Per §4.2 the durable store's atomic uniqueness
constraint rejects a conflicting insert and the Allocator "must
surface that as `AlreadyTaken` rather than a generic failure", so the
handler maps the unique-violation conflict from `UrlModel.create` to
the 409 `AlreadyTaken` outcome. -/
def handleCreateConflict : ShortenResult :=
  ShortenResult.alreadyTaken

/-- `UrlController.shortenUrl` (`urlController.js`), entered after URL
validation (input-format validation is the excluded external
collaborator; `originalUrl` is the validated, trimmed target).
To represent concurrent creations, the existence check runs against
the store state `dbCheck` and the insert against the (possibly newer)
state `dbInsert`; a sequential call has `dbCheck = dbInsert`.
Control flow: custom code → `validateCustomCode`, `sanitizeCustomCode`,
`UrlModel.exists` (409 when taken); otherwise
`generateUniqueShortCode`; then `validateExpirationDays`/`expiresAt`,
`UrlModel.create` (conflict handled by `handleCreateConflict`),
`cacheSet` of `url:code → originalUrl` with TTL 86400, 201 response. -/
def shortenUrl (originalUrl : String) (customCode : Option String)
    (expirationDays : Option Nat) (rand : Nat → Nat → Nat)
    (dbCheck dbInsert : Db) (cache : KVCache) (now : Nat)
    (userIp : String) : ShortenResult × Db × KVCache :=
  let withCode : Except ShortenResult (String × Bool) :=
    match customCode with
    | some cc =>
      if ¬ validateCustomCode cc then Except.error ShortenResult.invalidCustomCode
      else
        match sanitizeCustomCode (some cc) with
        | none => Except.error ShortenResult.invalidCustomCode
        | some sanitized =>
          if dbExists dbCheck sanitized then Except.error ShortenResult.alreadyTaken
          else Except.ok (sanitized, true)
    | none =>
      match (generateUniqueShortCode rand (fun c => dbExists dbCheck c) 5).1 with
      | none => Except.error ShortenResult.allocationExhausted
      | some code => Except.ok (code, false)
  match withCode with
  | Except.error e => (e, dbInsert, cache)
  | Except.ok (shortCode, isCustom) =>
    if ¬ validateExpirationDays expirationDays then
      (ShortenResult.invalidExpiration, dbInsert, cache)
    else
      let expiresAt := expiryOf expirationDays now
      match dbCreate dbInsert
        ⟨shortCode, originalUrl, now, expiresAt, 0, none, userIp, isCustom⟩ with
      | Except.error _ => (handleCreateConflict, dbInsert, cache)
      | Except.ok (newUrl, dbNew) =>
        let cache1 := (cacheSet cache ("url:" ++ shortCode)
          originalUrl 86400).2
        (ShortenResult.created newUrl.short_code newUrl.original_url,
         dbNew, cache1)

/-! ## Rate Governor (`middleware/rateLimiter.js` over
`cacheIncrement` of `config/redis.js`)

The rate-counter side of Redis is modelled separately from the
key/value side (the app keys them disjointly: `url:*` vs
`ratelimit:*`).  Times here are in seconds, matching
`windowInSeconds`. -/

/-- One Redis counter key: its count and, once `EXPIRE` has been
called, its absolute expiry time (the key is gone from `expiresAt`
on). -/
structure CtrEntry where
  key : String
  count : Nat
  expiresAt : Option Nat
deriving Repr, DecidableEq

/-- The rate-counter cache: availability flag plus counter entries.
`ok := false` models "client absent or `INCR` throws"
(`cacheIncrement` then returns 0). -/
structure CtrCache where
  ok : Bool
  entries : List CtrEntry
deriving Repr, DecidableEq

/-- An entry is live at time `now` if its expiry has not been
reached. -/
def ctrLive (e : CtrEntry) (now : Nat) : Bool :=
  match e.expiresAt with
  | none => true
  | some t => decide (now < t)

/-- The live entry for a key, if any (expired entries count as
absent, as in Redis). -/
def ctrFind (c : CtrCache) (k : String) (now : Nat) : Option CtrEntry :=
  match c.entries.find? (fun e => e.key = k) with
  | none => none
  | some e => if ctrLive e now then some e else none

/-- Redis `INCR key` at time `now`: a live key is incremented keeping
its expiry; an absent or expired key is (re)created at count 1 with no
expiry armed.  Returns the post-increment count. -/
def redisIncr (c : CtrCache) (k : String) (now : Nat) : Nat × CtrCache :=
  match ctrFind c k now with
  | some e =>
    (e.count + 1,
     ⟨c.ok, c.entries.map (fun x =>
        if x.key = k then { x with count := e.count + 1 } else x)⟩)
  | none =>
    (1, ⟨c.ok, ⟨k, 1, none⟩ :: c.entries.filter (fun x => x.key ≠ k)⟩)

/-- Redis `EXPIRE key seconds` at time `now`: arms the key's expiry at
`now + seconds`. -/
def redisExpire (c : CtrCache) (k : String) (seconds now : Nat) : CtrCache :=
  ⟨c.ok, c.entries.map (fun x =>
    if x.key = k then { x with expiresAt := some (now + seconds) } else x)⟩

/-- `cacheIncrement(key, expirationInSeconds)` from `config/redis.js`:
0 when the client is absent or `INCR` throws; otherwise `INCR`, and
when the returned count is 1 (the increment created the key) `EXPIRE`
is called with the window. -/
def cacheIncrement (c : CtrCache) (k : String) (expirationInSeconds : Nat)
    (now : Nat) : Nat × CtrCache :=
  if c.ok then
    let r := redisIncr c k now
    if r.1 = 1 then (r.1, redisExpire r.2 k expirationInSeconds now)
    else r
  else (0, c)

/-- The admission decision of the governor: pass the request on
(`next()`) or answer 429 with `retryAfter` seconds. -/
inductive Decision where
  | allowed
  | denied (retryAfterSeconds : Nat)
deriving Repr, DecidableEq

/-- `redisRateLimiter({windowMs, max})` from `rateLimiter.js`, one
request at time `now`: increment the fixed-window counter for
`ratelimit:<ip>:<path>` with expiry `Math.floor(windowMs/1000)`; deny
with `retryAfter = Math.ceil(windowMs/1000)` iff the post-increment
count exceeds `max`.  (The surrounding `try/catch` fails open; in the
embedding `cacheIncrement` is total, absorbing cache failures as 0.) -/
def admitRequest (c : CtrCache) (ip path : String) (windowMs maxReq : Nat)
    (now : Nat) : Decision × CtrCache :=
  let key := "ratelimit:" ++ ip ++ ":" ++ path
  let windowInSeconds := windowMs / 1000
  let r := cacheIncrement c key windowInSeconds now
  if r.1 > maxReq then
    (Decision.denied ((windowMs + 999) / 1000), r.2)
  else (Decision.allowed, r.2)

/-- A sequence of `admitRequest` calls at the given times, collecting the
decisions (used to state the 11-requests-in-one-window scenario). -/
def admitSeq (c : CtrCache) (ip path : String) (windowMs maxReq : Nat) :
    List Nat → List Decision × CtrCache
  | [] => ([], c)
  | t :: ts =>
    let r := admitRequest c ip path windowMs maxReq t
    let rest := admitSeq r.2 ip path windowMs maxReq ts
    (r.1 :: rest.1, rest.2)

/-- The live count Redis would report for a key (0 when the key is
absent or expired). -/
def ctrCount (c : CtrCache) (k : String) (now : Nat) : Nat :=
  match ctrFind c k now with
  | none => 0
  | some e => e.count

/-- The stored expiry of a key's counter entry: `none` when the key is
not stored at all, `some exp` when it is stored with expiry state
`exp`. -/
def ctrExpiry (c : CtrCache) (k : String) : Option (Option Nat) :=
  (c.entries.find? (fun e => e.key = k)).map (fun e => e.expiresAt)

/-! ## Concrete states used by counterexamples and witnesses -/

/-- A record that expired at time 10 (clock later reads 20). -/
def staleRecord : UrlRecord :=
  ⟨"abc1", "https://x.com", 0, some 10, 0, none, "1.2.3.4", false⟩

/-- A store holding only the expired record. -/
def staleDb : Db := ⟨[staleRecord]⟩

/-- A healthy cache still holding the stale entry for the expired
record. -/
def staleCache : KVCache := ⟨true, [(("url:abc1"), ("https://x.com"))]⟩

/-- A live (never-expiring) record. -/
def liveRecord : UrlRecord :=
  ⟨"abcd", "https://ex.com", 0, none, 0, none, "1.2.3.4", false⟩

/-- A store holding only the live record. -/
def liveDb : Db := ⟨[liveRecord]⟩

/-! ## Helper lemmas -/

/-- Every character produced by the Base62 picker lies in the
alphabet. -/
lemma base62Char_mem (r : Nat) : base62Char r ∈ BASE62_ALPHABET := by
  have h : r % 62 < BASE62_ALPHABET.length := by
    have h62 : BASE62_ALPHABET.length = 62 := by decide
    rw [h62]
    exact Nat.mod_lt r (by norm_num)
  unfold base62Char
  rw [List.getD_eq_getElem _ _ h]
  exact List.getElem_mem h

/-- A nanoid draw has exactly the requested number of characters. -/
lemma nanoidCustom_length (len : Nat) (rand : Nat → Nat) :
    (nanoidCustom len rand).length = len := by
  simp [nanoidCustom, String.length]

/-- The characters of a nanoid draw, as a list. -/
lemma nanoidCustom_toList (len : Nat) (rand : Nat → Nat) :
    (nanoidCustom len rand).toList =
      (List.range len).map (fun i => base62Char (rand i)) := rfl

/-- For a nonzero requested length, `generate` keeps that length. -/
lemma generate_length (len : Nat) (rand : Nat → Nat) (h : len ≠ 0) :
    (generate len rand).length = len := by
  simp [generate, h, nanoidCustom_length]

/-- Every character of a generated code lies in the Base62 alphabet
(whichever branch of `generate` ran). -/
lemma generate_mem (len : Nat) (rand : Nat → Nat) :
    ∀ c ∈ (generate len rand).toList, c ∈ BASE62_ALPHABET := by
  intro c hc
  unfold generate at hc
  split at hc <;>
  · rw [nanoidCustom_toList] at hc
    obtain ⟨i, _, rfl⟩ := List.mem_map.mp hc
    exact base62Char_mem _

/-- A default-length generated code is never the empty string. -/
lemma generate_ne_empty (rand : Nat → Nat) : generate 7 rand ≠ "" := by
  intro h
  have h7 := generate_length 7 rand (by norm_num)
  rw [h] at h7
  simp [String.length] at h7

/-- If the existence check accepts every candidate, the allocation
loop runs through its whole budget and fails. -/
lemma allocLoop_all (rand : Nat → Nat → Nat) (ex : String → Bool)
    (h : ∀ s, ex s = true) : ∀ n i, allocLoop rand ex i n = (none, n) := by
  intro n
  induction n with
  | zero => intro i; rfl
  | succ n ih => intro i; simp [allocLoop, h, ih]

/-- A code returned by the allocation loop was reported absent by the
existence check, and is one of the generated candidates. -/
lemma allocLoop_found (rand : Nat → Nat → Nat) (ex : String → Bool) :
    ∀ n i c k, allocLoop rand ex i n = (some c, k) →
      ex c = false ∧ ∃ j, c = generate 7 (rand j) := by
  intro n
  induction n with
  | zero => intro i c k h; simp [allocLoop] at h
  | succ n ih =>
    intro i c k h
    by_cases hex : ex (generate 7 (rand i)) = true
    · simp [allocLoop, hex] at h
      obtain ⟨h1, _⟩ := h
      have h2 : allocLoop rand ex (i + 1) n =
          (some c, (allocLoop rand ex (i + 1) n).2) := by
        rw [← h1]
      exact ih (i + 1) c _ h2
    · simp [allocLoop, hex] at h
      refine ⟨?_, i, h.1.symm⟩
      rw [← h.1]
      simpa using hex

/-- Removing a key from a key/value entry list makes lookups of that
key miss. -/
lemma kvLookup_filter_ne (es : List (String × String)) (k : String) :
    kvLookup (es.filter (fun e => e.1 ≠ k)) k = none := by
  induction es with
  | nil => rfl
  | cons x xs ih =>
    by_cases hx : x.1 = k
    · simpa [List.filter, hx] using ih
    · simp [List.filter, hx, kvLookup, List.find?, ih]

/-- A freshly inserted record (code previously absent) is what a
subsequent lookup of its code finds. -/
lemma findByShortCode_append (db : Db) (r : UrlRecord)
    (h : dbExists db r.short_code = false) :
    findByShortCode ⟨db.urls ++ [r]⟩ r.short_code = some r := by
  obtain ⟨urls⟩ := db
  simp only [dbExists, List.any_eq_false] at h
  induction urls with
  | nil => simp [findByShortCode, List.find?]
  | cons x xs ih =>
    have hx : ¬ (x.short_code = r.short_code) := by
      simpa using h x (by simp)
    have hrest := ih (fun y hy => h y (by simp [hy]))
    simp only [findByShortCode] at hrest ⊢
    rw [List.cons_append, List.find?_cons_of_neg _ (by simpa using hx)]
    exact hrest

/-- Resolution on a cache miss of a present, unexpired record redirects
to the record's target (the shared miss-path computation). -/
lemma redirectUrl_miss_fresh (db : Db) (cache : KVCache) (c : String)
    (t : Nat) (r : UrlRecord) (hcne : c ≠ "")
    (hmiss : cacheHitValue cache ("url:" ++ c) = none)
    (hfind : findByShortCode db c = some r)
    (hexp : isExpiredAt r.expires_at t = false) :
    (redirectUrl c db cache t true).1 =
      ResolveResult.redirect r.original_url := by
  simp [redirectUrl, hcne, hmiss, hfind, hexp]

/-- Key-based `find?` commutes with a key-preserving map. -/
lemma ctr_find_map_key (es : List CtrEntry) (f : CtrEntry → CtrEntry)
    (hf : ∀ x, (f x).key = x.key) (k : String) :
    (es.map f).find? (fun e => e.key = k) =
      (es.find? (fun e => e.key = k)).map f := by
  induction es with
  | nil => rfl
  | cons x xs ih =>
    by_cases hx : x.key = k
    · simp [List.find?, hf, hx]
    · simp [List.find?, hf, hx, ih]

/-- Redis `INCR` returns one more than the live count of the key. -/
lemma redisIncr_fst (c : CtrCache) (k : String) (now : Nat) :
    (redisIncr c k now).1 = ctrCount c k now + 1 := by
  unfold redisIncr ctrCount
  cases hf : ctrFind c k now <;> simp

/-- On a healthy cache, `cacheIncrement` returns one more than the live
count of the key (whether or not the expiry branch ran). -/
lemma cacheIncrement_fst (c : CtrCache) (k : String) (w now : Nat)
    (hok : c.ok = true) :
    (cacheIncrement c k w now).1 = ctrCount c k now + 1 := by
  unfold cacheIncrement
  rw [hok]
  simp only [if_true]
  split <;> simp [redisIncr_fst]

/-- A live `ctrFind` hit is the underlying `find?` hit. -/
lemma ctrFind_eq_some (c : CtrCache) (k : String) (now : Nat) (e : CtrEntry)
    (h : ctrFind c k now = some e) :
    c.entries.find? (fun x => x.key = k) = some e := by
  unfold ctrFind at h
  cases hf : c.entries.find? (fun x => x.key = k) with
  | none => rw [hf] at h; simp at h
  | some x =>
    rw [hf] at h
    have h3 : (if ctrLive x now = true then some x else none) = some e := h
    by_cases hl : ctrLive x now = true
    · rw [if_pos hl] at h3
      exact h3
    · rw [if_neg hl] at h3
      exact absurd h3 (by simp)

/-- After `INCR`, the key is stored. -/
lemma redisIncr_find_isSome (c : CtrCache) (k : String) (now : Nat) :
    (((redisIncr c k now).2.entries).find?
      (fun e => e.key = k)).isSome = true := by
  unfold redisIncr
  cases hf : ctrFind c k now with
  | none => simp [List.find?]
  | some e =>
    simp only
    rw [ctr_find_map_key _ _ (fun x => by split <;> rfl)]
    rw [ctrFind_eq_some c k now e hf]
    simp

/-- `EXPIRE` on a stored key arms its expiry at `now + w`. -/
lemma ctrExpiry_redisExpire_found (c2 : CtrCache) (k : String) (w now : Nat)
    (h : ((c2.entries).find? (fun e => e.key = k)).isSome = true) :
    ctrExpiry (redisExpire c2 k w now) k = some (some (now + w)) := by
  unfold ctrExpiry redisExpire
  simp only
  rw [ctr_find_map_key _ _ (fun x => by split <;> rfl)]
  obtain ⟨e, he⟩ := Option.isSome_iff_exists.mp h
  have hkey : e.key = k := by
    have h2 := List.find?_some he
    simpa using h2
  rw [he]
  simp [hkey]

/-- A key- and expiry-preserving rewrite of the entries leaves
`ctrExpiry` unchanged. -/
lemma ctrExpiry_map_preserve (b : Bool) (es : List CtrEntry)
    (f : CtrEntry → CtrEntry) (hk : ∀ x, (f x).key = x.key)
    (he : ∀ x, (f x).expiresAt = x.expiresAt) (k : String) :
    ctrExpiry ⟨b, es.map f⟩ k = ctrExpiry ⟨b, es⟩ k := by
  unfold ctrExpiry
  simp only
  rw [ctr_find_map_key _ _ hk]
  cases es.find? (fun e => e.key = k) <;> simp [he]

/-- `Math.ceil(windowMs / 1000)` for a whole-second window. -/
lemma nat_ceil_div_helper (w : Nat) : (1000 * w + 999) / 1000 = w := by
  rw [Nat.mul_add_div (by norm_num)]
  norm_num

/-- `Math.floor(windowMs / 1000)` for a whole-second window. -/
lemma nat_floor_div_helper (w : Nat) : 1000 * w / 1000 = w := by
  exact Nat.mul_div_cancel_left w (by norm_num)

/-! ## Claim theorems -/

/-- Claim C1, counterexample: a durable record whose `expiresAt` (10)
is strictly in the past (clock 20) does **not** yield `Expired` from
`resolve` when a stale cache entry for its code is still present — the
cache hit wins, the stale target is served, and the stale entry is left
in place. -/
theorem resolve_stale_hit_counterexample :
    isExpiredAt staleRecord.expires_at 20 = true ∧
    findByShortCode staleDb ("abc1") = some staleRecord ∧
    (redirectUrl ("abc1") staleDb staleCache 20 true).1 =
      ResolveResult.redirect ("https://x.com") ∧
    (redirectUrl ("abc1") staleDb staleCache 20 true).2.2 = staleCache := by
  decide

/-- Claim C1 as amended: for every short code whose durable record has
`expiresAt` strictly in the past, if the Fast Cache lookup misses (no
usable cache entry for the code), `resolve(code)` fails with `Expired`
and invalidates any cache entry for the code (so a healthy cache holds
none afterwards). -/
theorem resolve_expired_on_miss (db : Db) (cache : KVCache) (code : String)
    (now : Nat) (incrOk : Bool) (r : UrlRecord)
    (hcode : code ≠ "")
    (hmiss : cacheHitValue cache ("url:" ++ code) = none)
    (hfind : findByShortCode db code = some r)
    (hexp : isExpiredAt r.expires_at now = true) :
    (redirectUrl code db cache now incrOk).1 = ResolveResult.expired ∧
    ((redirectUrl code db cache now incrOk).2.2.ok = true →
      kvLookup (redirectUrl code db cache now incrOk).2.2.entries
        ("url:" ++ code) = none) := by
  have hred : redirectUrl code db cache now incrOk =
      (ResolveResult.expired, db, (cacheDel cache ("url:" ++ code)).2) := by
    simp [redirectUrl, hcode, hmiss, hfind, hexp]
  rw [hred]
  refine ⟨rfl, ?_⟩
  intro hok
  by_cases hc : cache.ok
  · simp [cacheDel, hc]
    simpa using kvLookup_filter_ne cache.entries ("url:" ++ code)
  · simp [cacheDel, hc] at hok

/-- Claim C1 witness: the amended theorem applied to the concrete
expired record with an empty (healthy) cache. -/
theorem resolve_expired_on_miss_witness :
    (redirectUrl ("abc1") staleDb ⟨true, []⟩ 20 true).1 =
      ResolveResult.expired :=
  (resolve_expired_on_miss staleDb ⟨true, []⟩ ("abc1") 20 true staleRecord
    (by decide) (by decide) (by decide) (by decide)).1

/-- Claim C2 (code bug evidence): on the cache-miss path the click
increment is `await`ed without a catch, so its failure changes the
user-visible outcome — for the live record, a cache miss with a failing
increment produces a propagated store error instead of the redirect,
while the same call with a healthy increment (or a cache hit with a
failing increment) redirects. -/
theorem resolve_increment_failure_divergence :
    (redirectUrl ("abcd") liveDb ⟨true, []⟩ 5 false).1 =
      ResolveResult.storeError ∧
    (redirectUrl ("abcd") liveDb ⟨true, []⟩ 5 true).1 =
      ResolveResult.redirect ("https://ex.com") ∧
    (redirectUrl ("abcd") liveDb
        ⟨true, [(("url:abcd"), ("https://ex.com"))]⟩ 5 false).1 =
      ResolveResult.redirect ("https://ex.com") := by
  decide

/-- Claim C3: when every Fast Cache operation fails (`ok = false`, so
`cacheIncrement` reports 0), `admitRequest` returns `Allowed` for every
client key, operation path, limit and window — the Rate Governor fails
open and the `Denied` branch is never taken. -/
theorem governor_fail_open (c : CtrCache) (ip path : String)
    (windowMs maxReq now : Nat) (h : c.ok = false) :
    (admitRequest c ip path windowMs maxReq now).1 = Decision.allowed := by
  simp [admitRequest, cacheIncrement, h]

/-- Claim C3 witness: the fail-open theorem at a concrete unavailable
cache. -/
theorem governor_fail_open_witness :
    (CtrCache.mk false []).ok = false ∧
    (admitRequest ⟨false, []⟩ ("1.2.3.4") ("/api/shorten") 60000 10 0).1 =
      Decision.allowed :=
  ⟨rfl, governor_fail_open ⟨false, []⟩ ("1.2.3.4") ("/api/shorten") 60000 10 0
    rfl⟩

/-- Claim C4: on a healthy cache the governor increments the
fixed-window counter (post-increment count = live count + 1), arms the
window expiry at `now + windowSeconds` exactly when the returned count
is 1 (and leaves the stored expiry unchanged otherwise), and denies
with `retryAfterSeconds = windowSeconds` exactly when the
post-increment count exceeds the limit; concretely, with `limit = 10`
and a 60-second window, the 11th call within the window is
`Denied (60)` after ten `Allowed`, and the first call at the window
boundary is `Allowed` again. -/
theorem rate_governor_fixed_window (c0 : CtrCache) (k ip path : String)
    (limit windowSeconds now : Nat) (hok : c0.ok = true) :
    ((cacheIncrement c0 k windowSeconds now).1 = ctrCount c0 k now + 1) ∧
    ((cacheIncrement c0 k windowSeconds now).1 = 1 →
      ctrExpiry (cacheIncrement c0 k windowSeconds now).2 k =
        some (some (now + windowSeconds))) ∧
    ((cacheIncrement c0 k windowSeconds now).1 ≠ 1 →
      ctrExpiry (cacheIncrement c0 k windowSeconds now).2 k =
        ctrExpiry c0 k) ∧
    ((admitRequest c0 ip path (1000 * windowSeconds) limit now).1 =
      if limit <
          (cacheIncrement c0 ("ratelimit:" ++ ip ++ ":" ++ path)
            windowSeconds now).1
      then Decision.denied windowSeconds else Decision.allowed) ∧
    ((admitSeq ⟨true, []⟩ ("203.0.113.7") ("/api/shorten") 60000 10
        [0, 1, 2, 3, 4, 5, 6, 7, 8, 9, 10]).1 =
      [Decision.allowed, Decision.allowed, Decision.allowed,
       Decision.allowed, Decision.allowed, Decision.allowed,
       Decision.allowed, Decision.allowed, Decision.allowed,
       Decision.allowed, Decision.denied 60]) ∧
    ((admitRequest (admitSeq ⟨true, []⟩ ("203.0.113.7") ("/api/shorten") 60000 10
        [0, 1, 2, 3, 4, 5, 6, 7, 8, 9, 10]).2 ("203.0.113.7")
        ("/api/shorten") 60000 10 60).1 = Decision.allowed) := by
  refine ⟨cacheIncrement_fst c0 k windowSeconds now hok, ?_, ?_, ?_,
    by decide, by decide⟩
  · intro h1
    simp only [cacheIncrement, hok, if_true] at h1 ⊢
    by_cases hr : (redisIncr c0 k now).1 = 1
    · rw [if_pos hr]
      exact ctrExpiry_redisExpire_found _ k windowSeconds now
        (redisIncr_find_isSome c0 k now)
    · rw [if_neg hr] at h1
      exact absurd h1 hr
  · intro h1
    by_cases hr : (redisIncr c0 k now).1 = 1
    · exfalso
      apply h1
      simp [cacheIncrement, hok, hr]
    · have h2 : (cacheIncrement c0 k windowSeconds now).2 =
          (redisIncr c0 k now).2 := by
        simp [cacheIncrement, hok, hr]
      rw [h2]
      cases hf : ctrFind c0 k now with
      | none =>
        exfalso
        apply hr
        rw [redisIncr_fst]
        simp [ctrCount, hf]
      | some e =>
        have h4 : (redisIncr c0 k now).2 = ⟨c0.ok, c0.entries.map
            (fun x => if x.key = k then { x with count := e.count + 1 }
              else x)⟩ := by
          simp [redisIncr, hf]
        rw [h4]
        exact ctrExpiry_map_preserve c0.ok c0.entries _
          (fun x => by split <;> rfl) (fun x => by split <;> rfl) k
  · simp only [admitRequest]
    rw [nat_floor_div_helper, nat_ceil_div_helper]
    by_cases hgt : limit <
        (cacheIncrement c0 ("ratelimit:" ++ ip ++ ":" ++ path)
          windowSeconds now).1
    · rw [if_pos hgt, if_pos hgt]
    · rw [if_neg hgt, if_neg hgt]

/-- Claim C4 witness: the fixed-window theorem applied at a concrete
healthy empty cache (first conjunct: the counter is incremented). -/
theorem rate_governor_fixed_window_witness :
    (cacheIncrement ⟨true, []⟩ ("k1") 60 0).1 =
      ctrCount ⟨true, []⟩ ("k1") 0 + 1 :=
  (rate_governor_fixed_window ⟨true, []⟩ ("k1") ("1.2.3.4")
    ("/api/shorten") 10 60 0 rfl).1

/-- Claim C5: with the Fast Cache completely unavailable, `resolve` of
a present, non-expired record still returns the correct target from
the Durable Record Store, leaving the cache untouched — no cache
failure reaches the caller (every cache operation in the source is
caught and degraded to a miss/no-op). -/
theorem resolve_cache_down_fallback (db : Db) (cache : KVCache)
    (code : String) (now : Nat) (r : UrlRecord)
    (hok : cache.ok = false) (hcode : code ≠ "")
    (hfind : findByShortCode db code = some r)
    (hexp : isExpiredAt r.expires_at now = false) :
    redirectUrl code db cache now true =
      (ResolveResult.redirect r.original_url,
       incrementClickCount db code now, cache) := by
  simp [redirectUrl, hcode, cacheHitValue, cacheGet, hok, hfind, hexp,
    cacheSet]

/-- Claim C5 witness: the fallback theorem at the concrete live record
with a failed cache. -/
theorem resolve_cache_down_fallback_witness :
    redirectUrl ("abcd") liveDb ⟨false, []⟩ 5 true =
      (ResolveResult.redirect ("https://ex.com"),
       incrementClickCount liveDb ("abcd") 5, ⟨false, []⟩) :=
  resolve_cache_down_fallback liveDb ⟨false, []⟩ ("abcd") 5 liveRecord
    rfl (by decide) (by decide) (by decide)

/-- Claim C6: if the existence check reports "exists" for every
candidate, `allocateUnique` performs exactly `maxAttempts`
generate-and-check attempts and fails (`AllocationExhausted`,
modelled as `none`); and any code it does return was reported absent
by the store's existence check at check time. -/
theorem allocateUnique_spec (rand : Nat → Nat → Nat) (ex : String → Bool)
    (maxAttempts : Nat) :
    ((∀ s, ex s = true) →
      generateUniqueShortCode rand ex maxAttempts = (none, maxAttempts)) ∧
    (∀ c k, generateUniqueShortCode rand ex maxAttempts = (some c, k) →
      ex c = false) := by
  constructor
  · intro h
    exact allocLoop_all rand ex h maxAttempts 0
  · intro c k h
    exact (allocLoop_found rand ex maxAttempts 0 c k h).1

/-- Claim C6 witness: the allocator theorem at an always-exists stub
(exhaustion after exactly 5 attempts) and at a never-exists stub. -/
theorem allocateUnique_spec_witness :
    generateUniqueShortCode (fun _ _ => 0) (fun _ => true) 5 = (none, 5) ∧
    (fun _ : String => false) ("0000000") = false :=
  ⟨(allocateUnique_spec (fun _ _ => 0) (fun _ => true) 5).1 (fun _ => rfl),
   (allocateUnique_spec (fun _ _ => 0) (fun _ => false) 5).2 ("0000000") 1
     (by decide)⟩

/-- Claim C7: for a creation request with a valid custom code, when the
pre-insert existence check saw the code absent but the durable store's
uniqueness constraint rejects the insert (a concurrent creation won
the race), the outcome surfaced to the caller is `AlreadyTaken`, not a
generic failure.  (The conflict-to-`AlreadyTaken` mapping lives in the
error-handler middleware, which is modelled from the spec —
see `handleCreateConflict`.) -/
theorem reserve_custom_conflict_already_taken (u cc san : String)
    (expD : Option Nat) (rand : Nat → Nat → Nat) (dbCheck dbInsert : Db)
    (cache : KVCache) (now : Nat) (ip : String)
    (hval : validateCustomCode cc = true)
    (hsan : sanitizeCustomCode (some cc) = some san)
    (hchk : dbExists dbCheck san = false)
    (hins : dbExists dbInsert san = true)
    (hexp : validateExpirationDays expD = true) :
    (shortenUrl u (some cc) expD rand dbCheck dbInsert cache now ip).1 =
      ShortenResult.alreadyTaken := by
  simp [shortenUrl, hval, hsan, hchk, hins, hexp, dbCreate,
    handleCreateConflict]

/-- Claim C7 witness: the conflict theorem at a concrete race — the
check-time store is empty, the insert-time store already holds the
custom code. -/
theorem reserve_custom_conflict_already_taken_witness :
    (shortenUrl ("https://t.co") (some ("mycode")) none (fun _ _ => 0)
      ⟨[]⟩
      ⟨[⟨"mycode", "https://other.example", 0, none, 0, none, "ip", true⟩]⟩
      ⟨true, []⟩ 0 ("1.2.3.4")).1 = ShortenResult.alreadyTaken :=
  reserve_custom_conflict_already_taken ("https://t.co") ("mycode")
    ("mycode") none (fun _ _ => 0) ⟨[]⟩
    ⟨[⟨"mycode", "https://other.example", 0, none, 0, none, "ip", true⟩]⟩
    ⟨true, []⟩ 0 ("1.2.3.4") (by decide) (by decide) (by decide)
    (by decide) rfl

/-- Claim C8, counterexample: `generate(0)` does not return a code of
the requested length 0 — the falsy-length guard falls back to the
default 7-character generator. -/
theorem generate_zero_length_counterexample :
    ¬ ((generate 0 (fun _ => 0)).length = 0) := by decide

/-- Claim C8 as amended: for every nonzero requested length,
`generate(length)` returns a code of exactly that length, and every
character of any generated code (any length, including the
falsy-length fallback) is drawn from the 62-symbol Base62 alphabet;
`generate` is a pure function of its randomness. -/
theorem generate_spec (len : Nat) (rand : Nat → Nat) :
    (len ≠ 0 → (generate len rand).length = len) ∧
    (∀ c ∈ (generate len rand).toList, c ∈ BASE62_ALPHABET) :=
  ⟨generate_length len rand, generate_mem len rand⟩

/-- Claim C8 witness: the generator theorem at length 5 with a concrete
randomness oracle. -/
theorem generate_spec_witness :
    (5 : Nat) ≠ 0 ∧ (generate 5 (fun i => i)).length = 5 :=
  ⟨by decide, (generate_spec 5 (fun i => i)).1 (by decide)⟩

/-- Claim C9: if `createShortLink(u)` (no custom code) succeeds with
code `c`, then `resolve(c)` — run at any time at which the new
record's expiry has not elapsed, against the store and cache states
the creation produced — returns `u`, whether the cache hit survives
or the resolution falls through to the durable store. -/
theorem create_resolve_roundtrip (u : String) (expD : Option Nat)
    (rand : Nat → Nat → Nat) (db : Db) (cache : KVCache) (now t : Nat)
    (ip : String) (c du : String) (dbNew : Db) (cacheNew : KVCache)
    (hcreate : shortenUrl u none expD rand db db cache now ip =
      (ShortenResult.created c du, dbNew, cacheNew))
    (hfresh : isExpiredAt (expiryOf expD now) t = false) :
    (redirectUrl c dbNew cacheNew t true).1 = ResolveResult.redirect u := by
  simp only [shortenUrl] at hcreate
  rcases hg : (generateUniqueShortCode rand (fun c => dbExists db c) 5).1
    with _ | code
  · rw [hg] at hcreate
    simp at hcreate
  · rw [hg] at hcreate
    have hfound := allocLoop_found rand (fun c => dbExists db c) 5 0 code
      (generateUniqueShortCode rand (fun c => dbExists db c) 5).2
      (by rw [← hg]; rfl)
    obtain ⟨hex, j, hcj⟩ := hfound
    simp only at hex
    have hcne7 : code ≠ "" := by
      rw [hcj]
      exact generate_ne_empty (rand j)
    by_cases hv : validateExpirationDays expD = true
    · simp [hv, dbCreate, hex] at hcreate
      obtain ⟨⟨hc1, hdu⟩, hdb, hcache⟩ := hcreate
      subst hc1
      subst hdb
      subst hcache
      by_cases hco : cache.ok = true
      · by_cases hu : u = ""
        · subst hu
          have hmiss : cacheHitValue
              (cacheSet cache ("url:" ++ code) ("") 86400).2
              ("url:" ++ code) = none := by
            simp [cacheHitValue, cacheGet, cacheSet, hco, kvLookup,
              List.find?]
          have hfind := findByShortCode_append db
            ⟨code, "", now, expiryOf expD now, 0, none, ip, false⟩ hex
          exact redirectUrl_miss_fresh _ _ code t _ hcne7 hmiss hfind hfresh
        · simp [redirectUrl, hcne7, cacheHitValue, cacheGet, cacheSet, hco,
            kvLookup, List.find?, hu]
      · have hmiss : cacheHitValue
            (cacheSet cache ("url:" ++ code) u 86400).2
            ("url:" ++ code) = none := by
          simp [cacheHitValue, cacheGet, cacheSet, hco]
        have hfind := findByShortCode_append db
          ⟨code, u, now, expiryOf expD now, 0, none, ip, false⟩ hex
        exact redirectUrl_miss_fresh _ _ code t _ hcne7 hmiss hfind hfresh
    · simp [hv] at hcreate

/-- Claim C9 witness: the round-trip theorem at a concrete creation
(empty store, healthy cache, randomness constantly 1) resolved at a
later clock. -/
theorem create_resolve_roundtrip_witness :
    (redirectUrl ("1111111")
      ⟨[⟨"1111111", "https://t.co", 0, none, 0, none, "9.9.9.9", false⟩]⟩
      ⟨true, [(("url:1111111"), ("https://t.co"))]⟩ 100 true).1 =
      ResolveResult.redirect ("https://t.co") :=
  create_resolve_roundtrip ("https://t.co") none (fun _ _ => 1) ⟨[]⟩
    ⟨true, []⟩ 0 100 ("9.9.9.9") ("1111111") ("https://t.co")
    ⟨[⟨"1111111", "https://t.co", 0, none, 0, none, "9.9.9.9", false⟩]⟩
    ⟨true, [(("url:1111111"), ("https://t.co"))]⟩ (by decide) (by decide)

/-- Claim C10: whenever `sanitizeCustomCode` returns a non-null code,
that code is accepted by `isValidShortCode` (length between 4 and 10,
all characters in the 62-symbol alphabet) — it never returns a
non-null code the validator would reject. -/
theorem sanitizeCustomCode_valid (input : Option String) (c : String)
    (h : sanitizeCustomCode input = some c) : isValidShortCode c = true := by
  match input with
  | none => simp [sanitizeCustomCode] at h
  | some s =>
    simp only [sanitizeCustomCode] at h
    split at h
    · exact absurd h (by simp)
    · split at h
      · next hv =>
        injection h with h2
        rw [← h2]
        exact hv
      · exact absurd h (by simp)

/-- Claim C10 witness: sanitizing a messy concrete input yields a code
the validator accepts. -/
theorem sanitizeCustomCode_valid_witness :
    sanitizeCustomCode (some (" my-code1! ")) = some ("mycode1") ∧
    isValidShortCode "mycode1" = true :=
  ⟨by decide,
   sanitizeCustomCode_valid (some (" my-code1! ")) ("mycode1") (by decide)⟩

end UrlShortener
